import Mathlib

/-!
Shallow embedding of the merlin workflow-step core (merlin/study/step.py and
merlin/router.py) used to check the natural-language specification.

Python strings are `String`; a Python value that may be `None` is
`Option String`; a dictionary entry that may be missing altogether is a
second `Option` layer (`none` = key absent, `some v` = key present with
Python value `v`).
-/

/-- Substring test on character lists: does the needle start the haystack? -/
def listStartsWith : List Char → List Char → Bool
  | [], _ => true
  | _ :: _, [] => false
  | a :: as, b :: bs => a = b && listStartsWith as bs

/-- Does the needle occur as a contiguous sublist of the haystack?
Models the Python `needle in haystack` test on strings. -/
def listOccursIn (needle : List Char) : List Char → Bool
  | [] => needle.isEmpty
  | c :: cs => listStartsWith needle (c :: cs) || listOccursIn needle cs

/-- Python `needle in haystack` on strings. -/
def strOccurs (needle haystack : String) : Bool :=
  listOccursIn needle.data haystack.data

/-- Python truthiness of an optional string (`None` and `""` are falsy). -/
def pyStrTruthy : Option String → Bool
  | none => false
  | some s => !s.isEmpty

/-- The placeholder form `$(label)` searched for by `needs_merlin_expansion`. -/
def placeholder (label : String) : String := "$(" ++ label ++ ")"

/-- The four reserved sample tokens appended to the label list in
`needs_merlin_expansion` (merlin/study/step.py lines 63-68 and 74-79). -/
def reservedSampleTokens : List String :=
  ["MERLIN_SAMPLE_ID", "MERLIN_SAMPLE_PATH", "merlin_sample_id", "merlin_sample_path"]

/-- Embedding of `needs_merlin_expansion(cmd, restart_cmd, labels)`
(merlin/study/step.py lines 51-83).  The first loop sets the flag when any
`$(label)` occurs in `cmd`; the second loop runs only when the flag is still
false and `restart_cmd` is truthy, and checks `restart_cmd` the same way. -/
def needs_merlin_expansion (cmd : String) (restart_cmd : Option String)
    (labels : List String) : Bool :=
  if !((labels ++ reservedSampleTokens).any fun label =>
        strOccurs (placeholder label) cmd)
      && pyStrTruthy restart_cmd then
    (labels ++ reservedSampleTokens).any fun label =>
      strOccurs (placeholder label) (restart_cmd.getD "")
  else
    (labels ++ reservedSampleTokens).any fun label =>
      strOccurs (placeholder label) cmd

/-- ASCII lowercase of one character, as Python `str.lower` acts on the
ASCII range (sufficient for the `"none"` comparison below). -/
def pyCharLower (c : Char) : Char :=
  if 'A' ≤ c && c ≤ 'Z' then Char.ofNat (c.toNat + 32) else c

/-- Python `s.lower()` (modelled on the ASCII range). -/
def pyLower (s : String) : String := ⟨s.data.map pyCharLower⟩

/-- The step dictionary as seen by `Step.get_task_queue_from_dict`: only the
`["run"]["task_queue"]` path is read.  `run = none` models a missing or
non-mapping `"run"` entry (the lookup raises `KeyError`/`TypeError`);
`run = some none` models a `"run"` mapping without a usable `"task_queue"`
key (again `KeyError`/`TypeError`); `run = some (some v)` models a present
`"task_queue"` entry whose Python value is `v` (possibly `None`). -/
structure StepDict where
  run : Option (Option (Option String))

/-- The `step_dict["run"]["task_queue"]` lookup: `Except.error ()` stands for
the raised `KeyError`/`TypeError` that `suppress` swallows. -/
def lookupTaskQueue (d : StepDict) : Except Unit (Option String) :=
  match d.run with
  | none => .error ()
  | some none => .error ()
  | some (some v) => .ok v

/-- Embedding of `Step.get_task_queue_from_dict(step_dict)`
(merlin/study/step.py lines 337-356).  `queue_tag` and `omit_tag` are the
ambient `CONFIG.celery` values, passed explicitly. -/
def Step.get_task_queue_from_dict (queue_tag : String) (omit_tag : Bool)
    (step_dict : StepDict) : String :=
  let queue := if omit_tag then "merlin" else queue_tag
  match lookupTaskQueue step_dict with
  | .error _ => queue
  | .ok val =>
    match val with
    | none => queue
    | some v =>
      if pyLower v = "none" ∨ v = "" then queue
      else if omit_tag then v else queue_tag ++ v

/-- A step dictionary carries no queue override when the lookup fails, the
value is Python `None`, the empty string, or the case-insensitive literal
`"none"`. -/
def noQueueOverride : StepDict → Bool
  | ⟨none⟩ => true
  | ⟨some none⟩ => true
  | ⟨some (some none)⟩ => true
  | ⟨some (some (some v))⟩ => v = "" || pyLower v = "none"

/-- Modelled from the spec: the closed ReturnCode vocabulary of §3 / §4.4
(`merlin/common/abstracts/enums.py` is not among the available sources).
The extra constructor `unrecognized` stands for any value outside the seven
named codes, which `mark_end`'s membership test sends to its `"UNKNOWN"`
fallback entry. -/
inductive ReturnCode
  | OK
  | DRY_OK
  | RETRY
  | RESTART
  | SOFT_FAIL
  | HARD_FAIL
  | STOP_WORKERS
  | unrecognized
deriving DecidableEq, Repr

/-- The maestro `State` enum values used by this core (external collaborator;
only the members read in merlin/study/step.py are modelled). -/
inductive MaestroState
  | INITIALIZED
  | RUNNING
  | FINISHED
  | CANCELLED
  | DRYRUN
  | FAILED
  | UNKNOWN
deriving DecidableEq, Repr

/-- The `state_translator` dictionary of `_update_status_file`
(merlin/study/step.py lines 230-238). -/
def state_translator : MaestroState → String
  | .INITIALIZED => "INITIALIZED"
  | .RUNNING => "RUNNING"
  | .FINISHED => "FINISHED"
  | .CANCELLED => "CANCELLED"
  | .DRYRUN => "DRY_RUN"
  | .FAILED => "FAILED"
  | .UNKNOWN => "UNKNOWN"

/-- The `state_mapper` dictionary of `mark_end` (merlin/study/step.py lines
152-185) together with the membership test on lines 188-189: the seven
recognized codes map to their table row, anything else to the `"UNKNOWN"`
fallback entry. -/
def state_mapper : ReturnCode → MaestroState × String
  | .OK => (.FINISHED, "MERLIN_SUCCESS")
  | .DRY_OK => (.DRYRUN, "DRY_SUCCESS")
  | .RETRY => (.FINISHED, "MERLIN_RETRY")
  | .RESTART => (.FINISHED, "MERLIN_RESTART")
  | .SOFT_FAIL => (.FAILED, "MERLIN_SOFT_FAIL")
  | .HARD_FAIL => (.FAILED, "MERLIN_HARD_FAIL")
  | .STOP_WORKERS => (.CANCELLED, "MERLIN_STOP_WORKERS")
  | .unrecognized => (.UNKNOWN, "UNRECOGNIZED_RETURN_CODE")

/-- State of one `MerlinStepRecord` instance, restricted to the fields its
transition methods read or write.  `elapsed_time`, `run_time` and the
ambient celery context (`task_always_eager`, `current_queue`,
`current_worker`) come from external collaborators and are carried as opaque
values.  `statusFile` is the content of the instance's `MERLIN_STATUS` file
(`none` = not yet written); `lastResult` is the result string most recently
placed in that file; `writes` counts `write_text` persistence events. -/
structure StepRecordState where
  name : String
  status : MaestroState
  num_restarts : Nat
  restart_limit : Nat
  elapsed_time : String
  run_time : String
  condensed_workspace : String
  task_always_eager : Bool
  current_queue : String
  current_worker : String
  statusFile : Option String
  lastResult : String
  writes : Nat
deriving DecidableEq, Repr

namespace MerlinStepRecord

/-- Embedding of `if not result: result = "-------"` (merlin/study/step.py lines 240-241):
Python falsy (`None` or `""`) becomes the placeholder. -/
def resolved_result : Option String → String
  | none => "-------"
  | some v => if v = "" then "-------" else v

/-- The single line written by `_update_status_file` (merlin/study/step.py
lines 244-264): the space-joined field list, with queue and worker appended
only when the run is not eager (i.e. a real task server is in play),
terminated by a newline. -/
def status_line (s : StepRecordState) (result : String) : String :=
  " ".intercalate
    ([s.name, state_translator s.status, result, s.elapsed_time, s.run_time,
      toString s.num_restarts, s.condensed_workspace] ++
     (if s.task_always_eager then [] else [s.current_queue, s.current_worker]))
  ++ "\n"

/-- Embedding of `MerlinStepRecord._update_status_file(result)` (merlin/study/step.py
lines 213-267) with the default `task_server="celery"`: resolves the result,
builds the status line and overwrites the `MERLIN_STATUS` file with it
(`Path.write_text` replaces the previous content). -/
def update_status_file (s : StepRecordState) (result : Option String) :
    StepRecordState :=
  { s with
    lastResult := resolved_result result
    statusFile := some (status_line s (resolved_result result))
    writes := s.writes + 1 }

/-- Embedding of `MerlinStepRecord.mark_running` (merlin/study/step.py lines 138-141):
the maestro superclass sets the status to RUNNING (and a start timestamp,
not modelled), then the status file is updated. -/
def mark_running (s : StepRecordState) : StepRecordState :=
  update_status_file { s with status := .RUNNING } none

/-- Embedding of `MerlinStepRecord.mark_end(state, max_retries)` (merlin/study/step.py
lines 143-200): maps the return code through `state_mapper` (unrecognized
values fall back to the `"UNKNOWN"` entry), lets the maestro superclass set
the mapped status, appends the max-retries suffix to the result when the
code is `SOFT_FAIL` and `max_retries` holds, and updates the status file. -/
def mark_end (s : StepRecordState) (state : ReturnCode) (max_retries : Bool) :
    StepRecordState :=
  let mapped := state_mapper state
  let step_result :=
    if state = .SOFT_FAIL && max_retries then mapped.2 ++ " (MAX RETRIES REACHED)"
    else mapped.2
  update_status_file { s with status := mapped.1 } (some step_result)

/-- Embedding of `MerlinStepRecord.mark_restart` (merlin/study/step.py lines 202-206):
both the increment and the status-file update sit inside the
`restart_limit == 0 or _num_restarts < restart_limit` guard. -/
def mark_restart (s : StepRecordState) : StepRecordState :=
  if s.restart_limit = 0 ∨ s.num_restarts < s.restart_limit then
    update_status_file { s with num_restarts := s.num_restarts + 1 } none
  else
    s

/-- Embedding of `MerlinStepRecord.setup_workspace` (merlin/study/step.py lines 208-211):
the superclass creates the workspace directory (not modelled), then the
status file is written. -/
def setup_workspace (s : StepRecordState) : StepRecordState :=
  update_status_file s none

end MerlinStepRecord

/-- A concrete record used to instantiate hypotheses of the theorems below. -/
def sampleRecord : StepRecordState :=
  { name := "hello_step"
    status := .INITIALIZED
    num_restarts := 0
    restart_limit := 2
    elapsed_time := "0d:0h:0m:0s"
    run_time := "0d:0h:0m:0s"
    condensed_workspace := "hello_step/ws"
    task_always_eager := true
    current_queue := "merlin"
    current_worker := "worker@host"
    statusFile := none
    lastResult := ""
    writes := 0 }

/-- Embedding of `any(any(iwn in iws for iws in worker_status) for iwn in worker_names)`
(merlin/router.py line 267): does any expected worker name occur as a
substring of any reported worker identity string? -/
def anyWorkerMatch (worker_names worker_status : List String) : Bool :=
  worker_names.any fun iwn => worker_status.any fun iws => strOccurs iwn iws

/-- The `while count < max_count` loop of `check_merlin_status`
(merlin/router.py lines 259-272), with `polls k` the worker listing returned
by `get_workers` on the iteration with counter value `k` and `fuel` the
remaining iterations.  Returns `true` when some iteration finds a match
(the Python loop breaks with `count < max_count`) and `false` when the
budget is exhausted (`count == max_count`). -/
def pollLoop (polls : Nat → List String) (worker_names : List String) :
    Nat → Nat → Bool
  | _, 0 => false
  | count, fuel + 1 =>
    if anyWorkerMatch worker_names (polls count) then true
    else pollLoop polls worker_names (count + 1) fuel

/-- Embedding of `total_jobs` accumulated over `queue_status` (merlin/router.py lines
249-253); each element of `queue_status` is modelled as its
(jobs, consumers) pair. -/
def totalJobs (queue_status : List (Nat × Nat)) : Nat :=
  (queue_status.map Prod.fst).sum

/-- Embedding of `total_consumers` accumulated over `queue_status` (merlin/router.py
lines 250-253). -/
def totalConsumers (queue_status : List (Nat × Nat)) : Nat :=
  (queue_status.map Prod.snd).sum

/-- Embedding of `check_merlin_status(args, spec)` (merlin/router.py lines
239-278).  `queue_status` is the queried (jobs, consumers) list,
`worker_names` the expected worker names from the spec, and `polls` the
successive `get_workers` listings.  `max_count` is fixed at 10 in the
source (line 262). -/
def check_merlin_status (queue_status : List (Nat × Nat))
    (worker_names : List String) (polls : Nat → List String) : Nat :=
  let total_jobs := totalJobs queue_status
  let total_consumers := totalConsumers queue_status
  if 0 < total_jobs ∧ total_consumers = 0 then
    if pollLoop polls worker_names 0 10 then total_jobs else 0
  else
    total_jobs

/-- The truthy `batch` mapping of a step's run section, when present: only
its `"type"` entry is read (`batch.get("type", default_batch_type)`). -/
structure BatchSection where
  btype : Option (Option String)
deriving DecidableEq, Repr

/-- The parts of a step's `run` mapping read by `Step.execute`: the
`"shell"` entry (outer `none` = key absent) and the `"batch"` entry
(`none` = absent, `None` or otherwise falsy; `some b` = truthy mapping). -/
structure StepRun where
  shell : Option (Option String)
  batch : Option BatchSection
deriving DecidableEq, Repr

/-- The parts of a `Step` read by `Step.execute`: its run section, the
`restart` flag and the restart command (for the
`self.restart and self.get_restart_cmd()` branch). -/
structure StepModel where
  run : StepRun
  restart_flag : Bool
  restart_cmd : Option String
deriving DecidableEq, Repr

/-- The `adapter_config` mapping restricted to the keys `Step.execute`
reads or writes.  `shell` and `batch_type` are dictionary entries that may
be absent (`none`) or hold a possibly-`None` Python value; `"type"` is
accessed unconditionally, so it is a plain string; `dry_run` is the value
compared with `is True`. -/
structure AdapterConfig where
  shell : Option (Option String)
  batch_type : Option (Option String)
  adapter_type : String
  dry_run : Bool
deriving DecidableEq, Repr

/-- Python `d.get(k)` on a modelled entry: `None` when the key is absent. -/
def pyGet (e : Option (Option String)) : Option String := e.getD none

/-- Python `d.get(k, default)` on a modelled entry. -/
def pyGetD (e : Option (Option String)) (default : Option String) :
    Option String :=
  match e with
  | none => default
  | some v => v

/-- Observable effects of one `Step.execute` call, in order: workspace
setup, script generation, and the eventual submit/restart through the
execution adapter. -/
inductive ExecEvent
  | setupWorkspace
  | generateScript
  | adapterSubmit
  | adapterRestart
deriving DecidableEq, Repr

/-- Result of the `Step.execute` embedding: the returned code, the shared
`adapter_config` mapping as left behind by the call, and the ordered
effect trace. -/
structure ExecResult where
  code : ReturnCode
  config : AdapterConfig
  events : List ExecEvent
deriving DecidableEq, Repr

/-- Embedding of `Step.execute(adapter_config)` (merlin/study/step.py lines
434-488).  The external adapter's outcomes are abstracted as `exec_rc`
(for `self.mstep.execute(adapter)`) and `restart_rc` (for
`self.mstep.restart(adapter)`).  Mirrors the in-place mutation of the
shared mapping: step-level shell and batch-type overrides are written into
it for the adapter construction, then the defaults are written back before
the workspace is set up and the script generated; if `dry_run` is `True`
the call returns `DRY_OK` before any adapter invocation. -/
def Step.execute (cfg : AdapterConfig) (step : StepModel)
    (exec_rc restart_rc : ReturnCode) : ExecResult :=
  let default_shell := pyGet cfg.shell
  let shell := pyGetD step.run.shell default_shell
  let cfg1 := { cfg with shell := some shell }
  let default_batch_type := pyGetD cfg1.batch_type (some cfg1.adapter_type)
  let cfg2 := { cfg1 with
    batch_type := match cfg1.batch_type with
      | none => some default_batch_type
      | some v => some v }
  let cfg3 := match step.run.batch with
    | none => cfg2
    | some batch =>
      { cfg2 with batch_type := some (pyGetD batch.btype default_batch_type) }
  let cfg4 := { cfg3 with shell := some default_shell }
  let cfg5 := { cfg4 with batch_type := some default_batch_type }
  let events := [ExecEvent.setupWorkspace, ExecEvent.generateScript]
  if cfg5.dry_run then
    { code := .DRY_OK, config := cfg5, events := events }
  else if step.restart_flag && pyStrTruthy step.restart_cmd then
    { code := restart_rc, config := cfg5, events := events ++ [.adapterRestart] }
  else
    { code := exec_rc, config := cfg5, events := events ++ [.adapterSubmit] }

/-- Concrete configuration and step used to instantiate hypotheses below. -/
def dryConfig : AdapterConfig :=
  { shell := some (some "/bin/bash")
    batch_type := none
    adapter_type := "local"
    dry_run := true }

/-- A step with no overrides, no restart flag and no restart command. -/
def simpleStep : StepModel :=
  { run := { shell := none, batch := none }
    restart_flag := false
    restart_cmd := none }

/-- A record whose positive restart limit is already reached. -/
def cappedRecord : StepRecordState :=
  { sampleRecord with restart_limit := 1, num_restarts := 1 }

/-! ## Helper lemmas -/

theorem needs_merlin_expansion_eq (cmd : String) (restart_cmd : Option String)
    (labels : List String) :
    needs_merlin_expansion cmd restart_cmd labels =
      (((labels ++ reservedSampleTokens).any fun label =>
          strOccurs (placeholder label) cmd)
       || (pyStrTruthy restart_cmd &&
           ((labels ++ reservedSampleTokens).any fun label =>
             strOccurs (placeholder label) (restart_cmd.getD "")))) := by
  unfold needs_merlin_expansion
  cases hA : (labels ++ reservedSampleTokens).any fun label =>
      strOccurs (placeholder label) cmd <;>
    cases hB : pyStrTruthy restart_cmd <;> simp [hA, hB]

/-! ## Claim theorems -/

/-- Claim C4: `needs_merlin_expansion(cmd, restart_cmd, labels)` returns
`True` exactly when some token `t` among the labels and the four reserved
sample tokens has `$(t)` occurring in `cmd`, or the restart command is
truthy (non-empty) and has `$(t)` occurring in it; a placeholder present
only in the restart command still yields `True`, and a command pair with no
such placeholder yields `False` for every label list. -/
theorem needs_merlin_expansion_iff (cmd : String) (restart_cmd : Option String)
    (labels : List String) :
    needs_merlin_expansion cmd restart_cmd labels = true ↔
      ∃ t ∈ labels ++ reservedSampleTokens,
        strOccurs (placeholder t) cmd = true ∨
        (pyStrTruthy restart_cmd = true ∧
         strOccurs (placeholder t) (restart_cmd.getD "") = true) := by
  rw [needs_merlin_expansion_eq]
  simp only [Bool.or_eq_true, Bool.and_eq_true, List.any_eq_true]
  constructor
  · rintro (⟨t, ht, h⟩ | ⟨hb, t, ht, h⟩)
    · exact ⟨t, ht, Or.inl h⟩
    · exact ⟨t, ht, Or.inr ⟨hb, h⟩⟩
  · rintro ⟨t, ht, h | ⟨hb, h⟩⟩
    · exact Or.inl ⟨t, ht, h⟩
    · exact Or.inr ⟨hb, t, ht, h⟩

/-- Claim C2: queue-name resolution as a function of
(queue_tag, omit_queue_tag, override): with no effective override (absent,
`None`, empty, or case-insensitively `"none"`) the result is `"merlin"`
when the tag is omitted and `queue_tag` otherwise; with an effective
override `v` the result is `v` verbatim when the tag is omitted and
`queue_tag ++ v` otherwise. -/
theorem get_task_queue_resolution (queue_tag : String) (omit_tag : Bool)
    (d : StepDict) :
    (noQueueOverride d = true →
      Step.get_task_queue_from_dict queue_tag omit_tag d =
        if omit_tag then "merlin" else queue_tag)
    ∧ (∀ v, d.run = some (some (some v)) → v ≠ "" → pyLower v ≠ "none" →
      Step.get_task_queue_from_dict queue_tag omit_tag d =
        if omit_tag then v else queue_tag ++ v) := by
  obtain ⟨run⟩ := d
  constructor
  · intro hno
    match run with
    | none => simp [Step.get_task_queue_from_dict, lookupTaskQueue]
    | some none => simp [Step.get_task_queue_from_dict, lookupTaskQueue]
    | some (some none) => simp [Step.get_task_queue_from_dict, lookupTaskQueue]
    | some (some (some v)) =>
      have h : v = "" ∨ pyLower v = "none" := by
        simpa [noQueueOverride] using hno
      rcases h with h | h <;>
        simp [Step.get_task_queue_from_dict, lookupTaskQueue, h]
  · intro v hv hne hnone
    simp only [StepDict.mk.injEq] at hv
    subst hv
    simp [Step.get_task_queue_from_dict, lookupTaskQueue, hne, hnone]

/-- Witness for the C2 theorem at concrete inputs. -/
theorem get_task_queue_resolution_witness :
    Step.get_task_queue_from_dict "q_" false ⟨some (some (some "steps"))⟩ = "q_steps" ∧
    Step.get_task_queue_from_dict "q_" true ⟨some (some (some "NoNe"))⟩ = "merlin" := by
  constructor
  · have h := (get_task_queue_resolution "q_" false ⟨some (some (some "steps"))⟩).2
      "steps" rfl (by decide) (by decide)
    exact h.trans (by decide)
  · have h := (get_task_queue_resolution "q_" true ⟨some (some (some "NoNe"))⟩).1
      (by decide)
    exact h.trans (by decide)

/-- Claim C10: when the `["run"]["task_queue"]` lookup fails (no `"run"`
mapping, or no usable `"task_queue"` key — a `KeyError`/`TypeError`),
`get_task_queue_from_dict` does not raise and returns the default queue
name for the configuration: `"merlin"` when the tag is omitted, the queue
tag otherwise. -/
theorem get_task_queue_missing_key (queue_tag : String) (omit_tag : Bool)
    (d : StepDict) (h : d.run = none ∨ d.run = some none) :
    Step.get_task_queue_from_dict queue_tag omit_tag d =
      if omit_tag then "merlin" else queue_tag := by
  obtain ⟨run⟩ := d
  simp only [] at h
  rcases h with h | h <;> rw [show run = _ from h] <;>
    simp [Step.get_task_queue_from_dict, lookupTaskQueue]

/-- Witness for the C10 theorem at a concrete input. -/
theorem get_task_queue_missing_key_witness :
    Step.get_task_queue_from_dict "q_" true ⟨none⟩ = "merlin" :=
  (get_task_queue_missing_key "q_" true ⟨none⟩ (Or.inl rfl)).trans (by decide)

/-- Claim C1: `mark_end(rc, max_retries)` sets exactly the lifecycle state
and persisted result label of the return-code table — OK ↦ (FINISHED,
MERLIN_SUCCESS), DRY_OK ↦ (DRYRUN, DRY_SUCCESS), RETRY ↦ (FINISHED,
MERLIN_RETRY), RESTART ↦ (FINISHED, MERLIN_RESTART), SOFT_FAIL ↦ (FAILED,
MERLIN_SOFT_FAIL), HARD_FAIL ↦ (FAILED, MERLIN_HARD_FAIL), STOP_WORKERS ↦
(CANCELLED, MERLIN_STOP_WORKERS), and any unrecognized value ↦ (UNKNOWN,
UNRECOGNIZED_RETURN_CODE) without raising — with the max-retries suffix
appended exactly when rc is SOFT_FAIL and max_retries is true. -/
theorem mark_end_return_code_table (s : StepRecordState) (maxr : Bool) :
    ((MerlinStepRecord.mark_end s .OK maxr).status = .FINISHED ∧
     (MerlinStepRecord.mark_end s .OK maxr).lastResult = "MERLIN_SUCCESS")
    ∧ ((MerlinStepRecord.mark_end s .DRY_OK maxr).status = .DRYRUN ∧
       (MerlinStepRecord.mark_end s .DRY_OK maxr).lastResult = "DRY_SUCCESS")
    ∧ ((MerlinStepRecord.mark_end s .RETRY maxr).status = .FINISHED ∧
       (MerlinStepRecord.mark_end s .RETRY maxr).lastResult = "MERLIN_RETRY")
    ∧ ((MerlinStepRecord.mark_end s .RESTART maxr).status = .FINISHED ∧
       (MerlinStepRecord.mark_end s .RESTART maxr).lastResult = "MERLIN_RESTART")
    ∧ ((MerlinStepRecord.mark_end s .SOFT_FAIL maxr).status = .FAILED ∧
       (MerlinStepRecord.mark_end s .SOFT_FAIL true).lastResult =
         "MERLIN_SOFT_FAIL" ++ " (MAX RETRIES REACHED)" ∧
       (MerlinStepRecord.mark_end s .SOFT_FAIL false).lastResult = "MERLIN_SOFT_FAIL")
    ∧ ((MerlinStepRecord.mark_end s .HARD_FAIL maxr).status = .FAILED ∧
       (MerlinStepRecord.mark_end s .HARD_FAIL maxr).lastResult = "MERLIN_HARD_FAIL")
    ∧ ((MerlinStepRecord.mark_end s .STOP_WORKERS maxr).status = .CANCELLED ∧
       (MerlinStepRecord.mark_end s .STOP_WORKERS maxr).lastResult = "MERLIN_STOP_WORKERS")
    ∧ ((MerlinStepRecord.mark_end s .unrecognized maxr).status = .UNKNOWN ∧
       (MerlinStepRecord.mark_end s .unrecognized maxr).lastResult =
         "UNRECOGNIZED_RETURN_CODE") := by
  cases maxr <;>
    exact ⟨⟨rfl, rfl⟩, ⟨rfl, rfl⟩, ⟨rfl, rfl⟩, ⟨rfl, rfl⟩, ⟨rfl, rfl, rfl⟩,
      ⟨rfl, rfl⟩, ⟨rfl, rfl⟩, ⟨rfl, rfl⟩⟩

theorem update_status_file_num_restarts (s : StepRecordState) (r : Option String) :
    (MerlinStepRecord.update_status_file s r).num_restarts = s.num_restarts := rfl

theorem update_status_file_restart_limit (s : StepRecordState) (r : Option String) :
    (MerlinStepRecord.update_status_file s r).restart_limit = s.restart_limit := rfl

theorem mark_restart_iter_unbounded (k : Nat) :
    ∀ s : StepRecordState, s.restart_limit = 0 →
      (MerlinStepRecord.mark_restart^[k] s).num_restarts = s.num_restarts + k := by
  induction k with
  | zero => intro s _; simp
  | succ n ih =>
    intro s h
    rw [Function.iterate_succ_apply]
    have h1 : MerlinStepRecord.mark_restart s =
        MerlinStepRecord.update_status_file
          { s with num_restarts := s.num_restarts + 1 } none := by
      unfold MerlinStepRecord.mark_restart
      rw [if_pos (Or.inl h)]
    rw [h1, ih _ (by simp [MerlinStepRecord.update_status_file, h])]
    simp [MerlinStepRecord.update_status_file]
    omega

theorem mark_restart_iter_bounded (k : Nat) :
    ∀ s : StepRecordState, 0 < s.restart_limit →
      s.num_restarts ≤ s.restart_limit →
      (MerlinStepRecord.mark_restart^[k] s).num_restarts =
        min (s.num_restarts + k) s.restart_limit := by
  induction k with
  | zero => intro s _ h2; simp; omega
  | succ n ih =>
    intro s h1 h2
    rw [Function.iterate_succ_apply]
    by_cases hlt : s.num_restarts < s.restart_limit
    · have he : MerlinStepRecord.mark_restart s =
          MerlinStepRecord.update_status_file
            { s with num_restarts := s.num_restarts + 1 } none := by
        unfold MerlinStepRecord.mark_restart
        rw [if_pos (Or.inr hlt)]
      rw [he, ih _ (by simp [MerlinStepRecord.update_status_file]; omega)
            (by simp [MerlinStepRecord.update_status_file]; omega)]
      simp [MerlinStepRecord.update_status_file]
      omega
    · have he : MerlinStepRecord.mark_restart s = s := by
        unfold MerlinStepRecord.mark_restart
        rw [if_neg]
        push_neg
        exact ⟨by omega, by omega⟩
      rw [he, ih s h1 h2]
      omega

/-- Claim C5: starting from a fresh record, `mark_restart` iterated `k`
times leaves the counter at `min k restart_limit` when the limit is
positive — so after exactly `restart_limit` calls it equals
`restart_limit` and further calls leave it unchanged — and at `k` when the
limit is 0 (every call increments). -/
theorem mark_restart_counter (s : StepRecordState) (k : Nat)
    (h0 : s.num_restarts = 0) :
    (0 < s.restart_limit →
      (MerlinStepRecord.mark_restart^[k] s).num_restarts = min k s.restart_limit)
    ∧ (s.restart_limit = 0 →
      (MerlinStepRecord.mark_restart^[k] s).num_restarts = k) := by
  constructor
  · intro h1
    rw [mark_restart_iter_bounded k s h1 (by omega), h0]
    simp
  · intro h1
    rw [mark_restart_iter_unbounded k s h1, h0]
    simp

/-- Witness for the C5 theorem: three calls on a fresh record with
restart limit 2 leave the counter at `min 3 2`. -/
theorem mark_restart_counter_witness :
    sampleRecord.num_restarts = 0 ∧ 0 < sampleRecord.restart_limit ∧
    (MerlinStepRecord.mark_restart^[3] sampleRecord).num_restarts =
      min 3 sampleRecord.restart_limit :=
  ⟨rfl, by decide, (mark_restart_counter sampleRecord 3 rfl).1 (by decide)⟩

/-- Counterexample to claim C6 as stated: on a record whose positive
restart limit (1) is already reached, `mark_restart` performs no
persistence at all — the write counter stays 0 and the status file stays
unwritten — because the status-file update sits inside the same guard as
the increment. -/
theorem mark_restart_no_persist_cex :
    cappedRecord.restart_limit = 1 ∧ cappedRecord.num_restarts = 1 ∧
    cappedRecord.writes = 0 ∧ cappedRecord.statusFile = none ∧
    (MerlinStepRecord.mark_restart cappedRecord).writes = 0 ∧
    (MerlinStepRecord.mark_restart cappedRecord).statusFile = none := by
  decide

/-- Claim C6 (amended): `mark_restart` re-persists the status record
exactly when it increments the counter — when `restart_limit` is 0 or the
counter is below the limit; a call with a positive limit already reached
is a complete no-op and in particular does not rewrite the status file. -/
theorem mark_restart_persistence (s : StepRecordState) :
    (s.restart_limit = 0 ∨ s.num_restarts < s.restart_limit →
      (MerlinStepRecord.mark_restart s).writes = s.writes + 1 ∧
      (MerlinStepRecord.mark_restart s).statusFile =
        some (MerlinStepRecord.status_line
          { s with num_restarts := s.num_restarts + 1 }
          (MerlinStepRecord.resolved_result none)))
    ∧ (¬(s.restart_limit = 0 ∨ s.num_restarts < s.restart_limit) →
      MerlinStepRecord.mark_restart s = s) := by
  constructor
  · intro h
    unfold MerlinStepRecord.mark_restart
    rw [if_pos h]
    exact ⟨rfl, rfl⟩
  · intro h
    unfold MerlinStepRecord.mark_restart
    rw [if_neg h]

/-- Witness for the amended C6 theorem at a concrete record below its
limit. -/
theorem mark_restart_persistence_witness :
    (MerlinStepRecord.mark_restart sampleRecord).writes = sampleRecord.writes + 1 :=
  ((mark_restart_persistence sampleRecord).1 (Or.inr (by decide))).1

/-- Claim C9: every status persistence overwrites the status file — its new
content is independent of the prior content — with exactly one
newline-terminated, space-joined line holding name, state, result,
elapsed_time, run_time, restart_count and condensed_workspace in that
order, followed by the queue and worker identifiers only when the run is
not eager (a real task server is in play); the result field is the
placeholder `-------` whenever no terminal result label was supplied, and
each of the four transitions persists through this same routine. -/
theorem status_file_line_format (s : StepRecordState)
    (prior result : Option String) (rc : ReturnCode) (maxr : Bool) :
    (MerlinStepRecord.update_status_file { s with statusFile := prior } result).statusFile =
      some (" ".intercalate
        ([s.name, state_translator s.status, MerlinStepRecord.resolved_result result,
          s.elapsed_time, s.run_time, toString s.num_restarts, s.condensed_workspace] ++
         (if s.task_always_eager then [] else [s.current_queue, s.current_worker]))
        ++ "\n")
    ∧ MerlinStepRecord.resolved_result none = "-------"
    ∧ MerlinStepRecord.mark_running s =
        MerlinStepRecord.update_status_file { s with status := .RUNNING } none
    ∧ MerlinStepRecord.setup_workspace s = MerlinStepRecord.update_status_file s none
    ∧ (s.restart_limit = 0 ∨ s.num_restarts < s.restart_limit →
        MerlinStepRecord.mark_restart s =
          MerlinStepRecord.update_status_file
            { s with num_restarts := s.num_restarts + 1 } none)
    ∧ MerlinStepRecord.mark_end s rc maxr =
        MerlinStepRecord.update_status_file
          { s with status := (state_mapper rc).1 }
          (some (if rc = .SOFT_FAIL && maxr then
              (state_mapper rc).2 ++ " (MAX RETRIES REACHED)"
            else (state_mapper rc).2)) := by
  refine ⟨rfl, rfl, rfl, rfl, ?_, rfl⟩
  intro h
  unfold MerlinStepRecord.mark_restart
  rw [if_pos h]

/-- Witness for the C9 theorem: the guarded `mark_restart` conjunct at a
concrete record below its limit. -/
theorem status_file_line_format_witness :
    MerlinStepRecord.mark_restart sampleRecord =
      MerlinStepRecord.update_status_file
        { sampleRecord with num_restarts := sampleRecord.num_restarts + 1 } none :=
  (status_file_line_format sampleRecord none none .OK false).2.2.2.2.1
    (Or.inr (by decide))

theorem pollLoop_eq_true_iff (polls : Nat → List String)
    (worker_names : List String) :
    ∀ fuel count, pollLoop polls worker_names count fuel = true ↔
      ∃ i < fuel, anyWorkerMatch worker_names (polls (count + i)) = true := by
  intro fuel
  induction fuel with
  | zero => intro count; simp [pollLoop]
  | succ n ih =>
    intro count
    cases h : anyWorkerMatch worker_names (polls count) with
    | true =>
      constructor
      · intro _; exact ⟨0, by omega, by simpa using h⟩
      · intro _; simp [pollLoop, h]
    | false =>
      have hstep : pollLoop polls worker_names count (n + 1) =
          pollLoop polls worker_names (count + 1) n := by
        simp [pollLoop, h]
      rw [hstep, ih (count + 1)]
      constructor
      · rintro ⟨i, hi, hm⟩
        refine ⟨i + 1, by omega, ?_⟩
        have harith : count + (i + 1) = count + 1 + i := by omega
        rw [harith]
        exact hm
      · rintro ⟨i, hi, hm⟩
        cases i with
        | zero => simp [h] at hm
        | succ j =>
          refine ⟨j, by omega, ?_⟩
          have harith : count + 1 + j = count + (j + 1) := by omega
          rw [harith]
          exact hm

/-- Claim C3: writing J for the summed pending-task counts and C for the
summed consumer counts, `check_merlin_status` returns J when J is 0 or C
is positive; when J is positive and C is 0 it polls the worker listing
over a budget of 10 attempts, returning the original J when some attempt
within the budget reports an expected worker name as a substring of a
worker identity, and 0 when all 10 attempts find no match. -/
theorem check_merlin_status_spec (queue_status : List (Nat × Nat))
    (worker_names : List String) (polls : Nat → List String) :
    (totalJobs queue_status = 0 ∨ 0 < totalConsumers queue_status →
      check_merlin_status queue_status worker_names polls = totalJobs queue_status)
    ∧ (0 < totalJobs queue_status → totalConsumers queue_status = 0 →
      ((∃ k < 10, anyWorkerMatch worker_names (polls k) = true) →
        check_merlin_status queue_status worker_names polls = totalJobs queue_status)
      ∧ ((∀ k < 10, anyWorkerMatch worker_names (polls k) = false) →
        check_merlin_status queue_status worker_names polls = 0)) := by
  constructor
  · intro h
    unfold check_merlin_status
    rw [if_neg]
    rcases h with h | h
    · rintro ⟨h1, -⟩; omega
    · rintro ⟨-, h2⟩; omega
  · intro h1 h2
    unfold check_merlin_status
    rw [if_pos ⟨h1, h2⟩]
    constructor
    · intro hex
      rw [if_pos]
      rw [pollLoop_eq_true_iff]
      obtain ⟨k, hk, hm⟩ := hex
      exact ⟨k, hk, by simpa using hm⟩
    · intro hall
      rw [if_neg]
      rw [pollLoop_eq_true_iff]
      rintro ⟨k, hk, hm⟩
      rw [Nat.zero_add] at hm
      rw [hall k hk] at hm
      cases hm

/-- Witness for the C3 theorem: 5 pending tasks, 0 consumers, and worker
listings in which the expected name never appears yield a report of 0. -/
theorem check_merlin_status_spec_witness :
    check_merlin_status [(5, 0)] ["step_worker"] (fun _ => ["other@host"]) = 0 :=
  ((check_merlin_status_spec [(5, 0)] ["step_worker"]
      (fun _ => ["other@host"])).2 (by decide) (by decide)).2
    (fun k _ => by decide)

/-- The `adapter_config` mapping as `Step.execute` leaves it: the step-level
overrides written back to the pre-call defaults. -/
def restoredConfig (cfg : AdapterConfig) : AdapterConfig :=
  { cfg with
    shell := some (pyGet cfg.shell)
    batch_type := some (pyGetD cfg.batch_type (some cfg.adapter_type)) }

theorem execute_config_eq (cfg : AdapterConfig) (step : StepModel)
    (exec_rc restart_rc : ReturnCode) :
    (Step.execute cfg step exec_rc restart_rc).config = restoredConfig cfg := by
  obtain ⟨⟨rshell, rbatch⟩, rflag, rcmd⟩ := step
  cases rbatch <;> simp only [Step.execute, restoredConfig] <;> split <;>
    first
      | rfl
      | (split <;> rfl)

/-- Claim C7: with the dry-run flag set, `Step.execute` returns `DRY_OK`
and never invokes the execution adapter's submit/execute/restart
operation; the workspace setup and script generation still occur before
the early return. -/
theorem execute_dry_run (cfg : AdapterConfig) (step : StepModel)
    (exec_rc restart_rc : ReturnCode) (h : cfg.dry_run = true) :
    (Step.execute cfg step exec_rc restart_rc).code = .DRY_OK ∧
    (Step.execute cfg step exec_rc restart_rc).events =
      [.setupWorkspace, .generateScript] ∧
    ExecEvent.adapterSubmit ∉ (Step.execute cfg step exec_rc restart_rc).events ∧
    ExecEvent.adapterRestart ∉ (Step.execute cfg step exec_rc restart_rc).events := by
  have hdry : (Step.execute cfg step exec_rc restart_rc) =
      { code := .DRY_OK
        config := (Step.execute cfg step exec_rc restart_rc).config
        events := [.setupWorkspace, .generateScript] } := by
    obtain ⟨⟨rshell, rbatch⟩, rflag, rcmd⟩ := step
    cases rbatch <;> simp [Step.execute, h]
  rw [hdry]
  refine ⟨rfl, rfl, ?_, ?_⟩ <;> simp

/-- Witness for the C7 theorem at a concrete dry-run configuration. -/
theorem execute_dry_run_witness :
    (Step.execute dryConfig simpleStep .OK .OK).code = .DRY_OK :=
  (execute_dry_run dryConfig simpleStep .OK .OK rfl).1

/-- Claim C8: after any `Step.execute` call, the shared mapping's `shell`
entry reads as its pre-call value and its `batch_type` entry equals the
pre-call default batch type (`batch_type` if present, else the `type`
entry), whatever step-level overrides were applied during the call. -/
theorem execute_restores_defaults (cfg : AdapterConfig) (step : StepModel)
    (exec_rc restart_rc : ReturnCode) :
    (Step.execute cfg step exec_rc restart_rc).config.shell =
      some (pyGet cfg.shell) ∧
    pyGet (Step.execute cfg step exec_rc restart_rc).config.shell =
      pyGet cfg.shell ∧
    (Step.execute cfg step exec_rc restart_rc).config.batch_type =
      some (pyGetD cfg.batch_type (some cfg.adapter_type)) ∧
    pyGet (Step.execute cfg step exec_rc restart_rc).config.batch_type =
      pyGetD cfg.batch_type (some cfg.adapter_type) := by
  rw [execute_config_eq]
  exact ⟨rfl, rfl, rfl, rfl⟩
